import Mathlib

/-!
Shallow embedding of the Soroban contract `ViryaIntegrationContract`
(src/SunereumOracle.rs) and proofs about its operations.

Machine integers (`u32`, `u64`, `i32`) are modelled as `Nat` / `Int`; the one
place the source can wrap, the `u64` subtraction `now - last_ping`, is
modelled explicitly by `wsub`.  Contract storage (the `DEVICES` map, the
`MAINTENANCE` vector and the `AUTH_PROVIDERS` vector) is modelled as an
explicit `ContractState` record threaded through every operation; each
operation returns its `Result` value together with the post-state, so that
"a failed call writes nothing" is a provable statement rather than a
convention.  Soroban `String` and `Address` are modelled as Lean `String`;
the `Map<String, Inverter>` is modelled as an association list with
replace-or-append `set` semantics.
-/

namespace Sunereum

/-- Soroban `Address`, modelled as an opaque identifier string. -/
abbrev Address := String

/-- Mirrors the `InverterData` struct (lines 7-23 of SunereumOracle.rs).
Field comments in the source: `energy_produced` is Wh for the hour,
`internal_temp` is degrees C times 10 (the only signed field),
`efficiency` and `power_factor` are declared as "percentage * 100". -/
structure InverterData where
  timestamp : Nat
  energy_produced : Nat
  peak_power : Nat
  dc_voltage : Nat
  dc_current : Nat
  ac_voltage : Nat
  ac_frequency : Nat
  internal_temp : Int
  efficiency : Nat
  power_factor : Nat
  daily_yield : Nat
  total_yield : Nat
  operating_hours : Nat
deriving DecidableEq

/-- Mirrors the `Inverter` struct (lines 25-40). -/
structure Inverter where
  device_id : String
  policy_id : String
  last_ping : Nat
  operational_status : Bool
  online_status : Bool
  risk_level : String
  device_type : String
  manufacturer : String
  model : String
  rated_power : Nat
  last_reading : InverterData
  hourly_readings : List InverterData
deriving DecidableEq

/-- Mirrors the `MaintenanceRecord` struct (lines 70-80). -/
structure MaintenanceRecord where
  timestamp : Nat
  report_hash : String
  technician : Address
  status : String
  maintenance_type : String
  issues_found : List String
  parts_replaced : List String
deriving DecidableEq

/-- The three instance-storage slots of the contract: `DEVICES`,
`MAINTENANCE` and `AUTH_PROVIDERS`.  The source reads each slot with
`unwrap_or(empty)`, so absent storage behaves exactly like the empty
value and the state is total. -/
structure ContractState where
  devices : List (String × Inverter)
  maintenance : List MaintenanceRecord
  authorized : List Address
deriving DecidableEq

/-- Lookup in the `Map<String, Inverter>` storage (soroban `Map::get`). -/
def mapGet {α : Type} : List (String × α) → String → Option α
  | [], _ => none
  | (k, v) :: rest, key => if k = key then some v else mapGet rest key

/-- Soroban `Map::set`: replace the value at the key if present, insert
otherwise. -/
def mapSet {α : Type} : List (String × α) → String → α → List (String × α)
  | [], key, val => [(key, val)]
  | (k, v) :: rest, key, val =>
      if k = key then (key, val) :: rest else (k, v) :: mapSet rest key val

/-- Soroban `Map::contains_key`. -/
def mapContains {α : Type} (m : List (String × α)) (key : String) : Bool :=
  (mapGet m key).isSome

/-- Wrapping `u64` subtraction: the value of `a - b` when both operands
are below `2 ^ 64` (release-profile Rust wraps on underflow; for the
in-range cases used by every theorem below it coincides with plain
subtraction). -/
def wsub (a b : Nat) : Nat := (a + 2 ^ 64 - b) % 2 ^ 64

/-- Models line 195 of the source:
`(peak_power as f64 / rated_power as f64 * 100.0) as u32`.

The source computes the ratio in `f64` and truncates with a saturating
cast.  This definition is the exact rational value `⌊100 * peak / rated⌋`
clamped to `u32::MAX`, with the Rust cast edge cases for
`rated_power = 0` spelled out (`x / 0.0` is `inf`, which saturates to
`u32::MAX` when `x > 0`, and `0.0 / 0.0` is `NaN`, which casts to `0`).

Relation to the `f64` computation, for `u32` operands: both divisions
round once and the product rounds once, so the combined relative error is
below `2 ^ (-51)`; since `100 * peak < 2 ^ 39`, the absolute error is
below `1 / rated`, the minimal distance from a non-integer value of
`100 * peak / rated` to an integer.  Hence truncation agrees with the
exact floor whenever the exact ratio is not an integer.  When it is an
integer the `f64` result can land one below it, so this definition can
exceed the `f64` value by one there — except at the one integer the
contract ever compares against: `100 * peak / rated = 70` forces
`peak / rated = 7 / 10`, whose correctly rounded `f64` quotient times
`100.0` is exactly `70.0`.  Consequently the derived test
`70 ≤ perf_percent peak rated` coincides with the test the source
performs on the `f64` value for every pair of `u32` operands. -/
def perf_percent (peak_power rated_power : Nat) : Nat :=
  if rated_power = 0 then (if peak_power = 0 then 0 else 4294967295)
  else min (peak_power * 100 / rated_power) 4294967295

/-- The `new_reading` record built at lines 174-188 of
`update_inverter_data`: the submitted fields stamped with the ledger
timestamp. -/
def mkReading (now : Nat)
    (energy_produced peak_power dc_voltage dc_current ac_voltage ac_frequency : Nat)
    (internal_temp : Int)
    (efficiency power_factor daily_yield total_yield operating_hours : Nat) :
    InverterData :=
  { timestamp := now
    energy_produced := energy_produced
    peak_power := peak_power
    dc_voltage := dc_voltage
    dc_current := dc_current
    ac_voltage := ac_voltage
    ac_frequency := ac_frequency
    internal_temp := internal_temp
    efficiency := efficiency
    power_factor := power_factor
    daily_yield := daily_yield
    total_yield := total_yield
    operating_hours := operating_hours }

/-- The `while hourly_readings.len() > 24 { remove(0) }` loop at lines
212-214: drop elements from the front while more than 24 remain. -/
def trimHistory : List InverterData → List InverterData
  | [] => []
  | x :: t => if 24 < (x :: t).length then trimHistory t else x :: t

/-- The in-place mutation of the device record performed for one accepted
reading, lines 190-214 of `update_inverter_data`: set online, stamp
`last_ping`, recompute `operational_status` from the performance ratio
against `PERFORMANCE_THRESHOLD = 70`, recompute `risk_level` from the
raw `efficiency` field against 90 and 75, store the reading as
`last_reading`, append it to `hourly_readings` and trim the history. -/
def applyReading (device : Inverter) (now : Nat) (r : InverterData) : Inverter :=
  let ratio := perf_percent r.peak_power device.rated_power
  let opStatus : Bool := decide (70 ≤ ratio)
  { device with
    online_status := true
    last_ping := now
    operational_status := opStatus
    risk_level :=
      if opStatus ∧ 90 ≤ r.efficiency then "LOW"
      else if opStatus ∧ 75 ≤ r.efficiency then "MEDIUM"
      else "HIGH"
    last_reading := r
    hourly_readings := trimHistory (device.hourly_readings ++ [r]) }

/-- Models `initialize` (lines 92-96): unconditionally store an empty
device map, an empty maintenance vector and an empty provider vector. -/
def init_storage (_s : ContractState) : ContractState :=
  { devices := [], maintenance := [], authorized := [] }

/-- Models `register_inverter` (lines 98-146). -/
def register_inverter (s : ContractState) (now : Nat)
    (device_id policy_id manufacturer model : String) (rated_power : Nat) :
    Except String Unit × ContractState :=
  if mapContains s.devices device_id then
    (Except.error "Device already registered", s)
  else
    let empty_reading : InverterData :=
      { timestamp := now, energy_produced := 0, peak_power := 0, dc_voltage := 0,
        dc_current := 0, ac_voltage := 0, ac_frequency := 0, internal_temp := 0,
        efficiency := 0, power_factor := 0, daily_yield := 0, total_yield := 0,
        operating_hours := 0 }
    let device : Inverter :=
      { device_id := device_id
        policy_id := policy_id
        last_ping := now
        operational_status := true
        online_status := true
        risk_level := "LOW"
        device_type := "INVERTER"
        manufacturer := manufacturer
        model := model
        rated_power := rated_power
        last_reading := empty_reading
        hourly_readings := [] }
    (Except.ok (), { s with devices := mapSet s.devices device_id device })

/-- Models `update_inverter_data` (lines 148-224).  The returned boolean
is the claim-trigger signal of lines 220-221, computed from the
just-updated record (whose `last_ping` is `now`). -/
def update_inverter_data (s : ContractState) (now : Nat) (device_id : String)
    (auth_provider : Address)
    (energy_produced peak_power dc_voltage dc_current ac_voltage ac_frequency : Nat)
    (internal_temp : Int)
    (efficiency power_factor daily_yield total_yield operating_hours : Nat) :
    Except String Bool × ContractState :=
  if !(s.authorized.contains auth_provider) then
    (Except.error "Unauthorized provider", s)
  else
    match mapGet s.devices device_id with
    | some device =>
        let r := mkReading now energy_produced peak_power dc_voltage dc_current
          ac_voltage ac_frequency internal_temp efficiency power_factor
          daily_yield total_yield operating_hours
        let device' := applyReading device now r
        (Except.ok (!device'.operational_status &&
            decide (14400 < wsub now device'.last_ping)),
         { s with devices := mapSet s.devices device_id device' })
    | none => (Except.error "Device not found", s)

/-- Models `check_device_status` (lines 226-245): mark the device offline
when no ping was received within the last 300 seconds; otherwise write
nothing. -/
def check_device_status (s : ContractState) (now : Nat) (device_id : String) :
    Except String Unit × ContractState :=
  match mapGet s.devices device_id with
  | some device =>
      if 300 < wsub now device.last_ping then
        let device' : Inverter := { device with online_status := false }
        (Except.ok (), { s with devices := mapSet s.devices device_id device' })
      else (Except.ok (), s)
  | none => (Except.error "Device not found", s)

/-- Models `authorize_provider` (lines 302-307): unconditionally append. -/
def authorize_provider (s : ContractState) (provider : Address) :
    Except String Unit × ContractState :=
  (Except.ok (), { s with authorized := s.authorized ++ [provider] })

/-- Models `add_maintenance_record` (lines 261-290). -/
def add_maintenance_record (s : ContractState) (now : Nat) (device_id : String)
    (report_hash : String) (technician : Address) (maintenance_type : String)
    (issues_found parts_replaced : List String) :
    Except String Unit × ContractState :=
  if !(mapContains s.devices device_id) then
    (Except.error "Device not found", s)
  else
    let record : MaintenanceRecord :=
      { timestamp := now, report_hash := report_hash, technician := technician,
        status := "COMPLETED", maintenance_type := maintenance_type,
        issues_found := issues_found, parts_replaced := parts_replaced }
    (Except.ok (), { s with maintenance := s.maintenance ++ [record] })

/-- One external call to the contract, used to talk about whole call
traces (e.g. "this actor was never passed to `authorize_provider`"). -/
inductive Call where
  | init : Call
  | register (now : Nat) (device_id policy_id manufacturer model : String)
      (rated_power : Nat) : Call
  | update (now : Nat) (device_id : String) (provider : Address)
      (energy_produced peak_power dc_voltage dc_current ac_voltage ac_frequency : Nat)
      (internal_temp : Int)
      (efficiency power_factor daily_yield total_yield operating_hours : Nat) : Call
  | check (now : Nat) (device_id : String) : Call
  | maintain (now : Nat) (device_id report_hash : String) (technician : Address)
      (maintenance_type : String) (issues_found parts_replaced : List String) : Call
  | authorize (provider : Address) : Call
deriving DecidableEq

/-- The state transition of one call (errors leave the state unchanged,
exactly as the corresponding operation returns it). -/
def applyCall (s : ContractState) : Call → ContractState
  | Call.init => init_storage s
  | Call.register now id pol man mdl rp => (register_inverter s now id pol man mdl rp).2
  | Call.update now id prov e p dv dc av af it eff pf dy ty oh =>
      (update_inverter_data s now id prov e p dv dc av af it eff pf dy ty oh).2
  | Call.check now id => (check_device_status s now id).2
  | Call.maintain now id rh tech mt isf pr => (add_maintenance_record s now id rh tech mt isf pr).2
  | Call.authorize prov => (authorize_provider s prov).2

/-- Run a list of calls from a state. -/
def runTrace (s : ContractState) (calls : List Call) : ContractState :=
  calls.foldl applyCall s

/-- The state of a freshly deployed contract: no storage slot is set, and
every read goes through `unwrap_or(empty)`. -/
def initState : ContractState :=
  { devices := [], maintenance := [], authorized := [] }

/-- The device record created by `register_inverter` at ledger time 0 for
the device of the source's own test (`INV001`, rated 7600 W). -/
def demoDevice : Inverter :=
  { device_id := "INV001", policy_id := "POL001", last_ping := 0,
    operational_status := true, online_status := true, risk_level := "LOW",
    device_type := "INVERTER", manufacturer := "SolarEdge", model := "SE7600H",
    rated_power := 7600,
    last_reading := mkReading 0 0 0 0 0 0 0 0 0 0 0 0 0,
    hourly_readings := [] }

/-- A reachable state: fresh contract, `INV001` registered at time 0,
provider `PROVIDER1` authorized. -/
def demoState : ContractState :=
  (authorize_provider
    (register_inverter (init_storage initState) 0 "INV001" "POL001"
      "SolarEdge" "SE7600H" 7600).2 "PROVIDER1").2

/-- The demo device with a history that is already at the 24-entry cap. -/
def fullHistoryDevice : Inverter :=
  { demoDevice with hourly_readings := List.replicate 24 (mkReading 0 0 0 0 0 0 0 0 0 0 0 0 0) }

/-- `demoState` after 24 readings have accumulated on `INV001`. -/
def fullHistoryState : ContractState :=
  { devices := [("INV001", fullHistoryDevice)], maintenance := [],
    authorized := ["PROVIDER1"] }

/-- The call trace of the source's own test: deploy, register `INV001`,
authorize `PROVIDER1`. -/
def demoTrace : List Call :=
  [Call.init,
   Call.register 0 "INV001" "POL001" "SolarEdge" "SE7600H" 7600,
   Call.authorize "PROVIDER1"]

theorem trimHistory_eq_drop (l : List InverterData) :
    trimHistory l = List.drop (l.length - 24) l := by
  induction l with
  | nil => rfl
  | cons x t ih =>
    simp only [trimHistory, List.length_cons]
    by_cases h : 24 < t.length + 1
    · rw [if_pos h, ih]
      have h24 : t.length + 1 - 24 = (t.length - 24) + 1 := by omega
      rw [h24, List.drop_succ_cons]
    · rw [if_neg h]
      have h0 : t.length + 1 - 24 = 0 := by omega
      rw [h0, List.drop_zero]

theorem mapGet_mapSet_self {α : Type} (m : List (String × α)) (key : String) (val : α) :
    mapGet (mapSet m key val) key = some val := by
  induction m with
  | nil => simp [mapSet, mapGet]
  | cons p rest ih =>
    obtain ⟨k, v⟩ := p
    by_cases h : k = key
    · simp [mapSet, mapGet, h]
    · simp [mapSet, mapGet, h, ih]

theorem mapSet_eq_of_mapGet {α : Type} (m : List (String × α)) (key : String) (val : α)
    (h : mapGet m key = some val) : mapSet m key val = m := by
  induction m with
  | nil => simp [mapGet] at h
  | cons p rest ih =>
    obtain ⟨k, v⟩ := p
    by_cases hk : k = key
    · subst hk
      have h' : v = val := by simpa [mapGet] using h
      subst h'
      simp [mapSet]
    · simp only [mapGet, if_neg hk] at h
      simp [mapSet, hk, ih h]

theorem wsub_self (a : Nat) : wsub a a = 0 := by
  unfold wsub
  rw [Nat.add_sub_cancel_left, Nat.mod_self]

theorem wsub_eq_sub (a b : Nat) (hb : b ≤ a) (ha : a < 2 ^ 64) : wsub a b = a - b := by
  unfold wsub
  omega

theorem le_perf_percent_iff (p r : Nat) (hr : 0 < r) :
    70 ≤ perf_percent p r ↔ 70 * r ≤ p * 100 := by
  unfold perf_percent
  rw [if_neg (Nat.pos_iff_ne_zero.mp hr), Nat.le_min]
  constructor
  · rintro ⟨h1, _⟩
    exact (Nat.le_div_iff_mul_le hr).mp h1
  · intro h
    exact ⟨(Nat.le_div_iff_mul_le hr).mpr h, by norm_num⟩

theorem update_ok_elim (s : ContractState) (now : Nat) (device_id : String)
    (auth_provider : Address)
    (e p dv dc av af : Nat) (it : Int) (eff pf dy ty oh : Nat)
    (b : Bool) (s' : ContractState)
    (hup : update_inverter_data s now device_id auth_provider e p dv dc av af
      it eff pf dy ty oh = (Except.ok b, s')) :
    ∃ d, mapGet s.devices device_id = some d ∧
      mapGet s'.devices device_id =
        some (applyReading d now (mkReading now e p dv dc av af it eff pf dy ty oh)) ∧
      b = false := by
  by_cases ha : s.authorized.contains auth_provider
  · cases hm : mapGet s.devices device_id with
    | none =>
      have ha' : auth_provider ∈ s.authorized := by simpa using ha
      simp [update_inverter_data, ha', hm] at hup
    | some d =>
      refine ⟨d, rfl, ?_⟩
      simp only [update_inverter_data, ha, Bool.not_true, Bool.false_eq_true,
        if_false, hm] at hup
      injection hup with h1 h2
      injection h1 with hb
      subst h2
      subst hb
      constructor
      · exact mapGet_mapSet_self s.devices device_id _
      · simp [applyReading, wsub_self]
  · have ha' : auth_provider ∉ s.authorized := by simpa using ha
    simp [update_inverter_data, ha'] at hup

theorem check_stale_writes (s : ContractState) (now : Nat) (device_id : String)
    (d : Inverter) (hd : mapGet s.devices device_id = some d)
    (hcond : 300 < wsub now d.last_ping) :
    check_device_status s now device_id =
      (Except.ok (), { s with devices := mapSet s.devices device_id ({ d with online_status := false }) }) := by
  unfold check_device_status
  simp only [hd]
  rw [if_pos hcond]

theorem register_preserves_authorized (s : ContractState) (now : Nat)
    (device_id policy_id manufacturer model : String) (rated_power : Nat) :
    ((register_inverter s now device_id policy_id manufacturer model rated_power).2).authorized
      = s.authorized := by
  unfold register_inverter
  split <;> rfl

theorem update_preserves_authorized (s : ContractState) (now : Nat) (device_id : String)
    (auth_provider : Address) (e p dv dc av af : Nat) (it : Int) (eff pf dy ty oh : Nat) :
    ((update_inverter_data s now device_id auth_provider e p dv dc av af it eff pf
        dy ty oh).2).authorized = s.authorized := by
  unfold update_inverter_data
  split
  · rfl
  · split <;> rfl

theorem check_preserves_authorized (s : ContractState) (now : Nat) (device_id : String) :
    ((check_device_status s now device_id).2).authorized = s.authorized := by
  unfold check_device_status
  split
  · split <;> rfl
  · rfl

theorem maintain_preserves_authorized (s : ContractState) (now : Nat)
    (device_id report_hash : String) (technician : Address) (maintenance_type : String)
    (issues_found parts_replaced : List String) :
    ((add_maintenance_record s now device_id report_hash technician maintenance_type
        issues_found parts_replaced).2).authorized = s.authorized := by
  unfold add_maintenance_record
  split <;> rfl

theorem runTrace_not_mem_authorized (actor : Address) (calls : List Call) :
    ∀ (s : ContractState), actor ∉ s.authorized →
      Call.authorize actor ∉ calls →
      actor ∉ (runTrace s calls).authorized := by
  induction calls with
  | nil => intro s hs _; exact hs
  | cons c t ih =>
    intro s hs hn
    have hnt : Call.authorize actor ∉ t := fun h => hn (List.mem_cons_of_mem _ h)
    have hstep : actor ∉ (applyCall s c).authorized := by
      cases c with
      | init => simp [applyCall, init_storage]
      | register now id pol man mdl rp =>
        simp only [applyCall, register_preserves_authorized]
        exact hs
      | update now id prov e p dv dc av af it eff pf dy ty oh =>
        simp only [applyCall, update_preserves_authorized]
        exact hs
      | check now id =>
        simp only [applyCall, check_preserves_authorized]
        exact hs
      | maintain now id rh tech mt isf pr =>
        simp only [applyCall, maintain_preserves_authorized]
        exact hs
      | authorize prov =>
        have hne : actor ≠ prov := by
          intro h
          exact hn (by rw [h]; exact List.mem_cons_self _ _)
        simp [applyCall, authorize_provider, List.mem_append, hs, hne]
    exact ih (applyCall s c) hstep hnt

/-- C5: if a device id is already present in the registry, a second
`register_inverter` with that id fails with the AlreadyExists error
("Device already registered"), and the whole persisted state after the
failed attempt equals the state before it. -/
theorem register_duplicate_fails (s : ContractState) (now : Nat)
    (device_id policy_id manufacturer model : String) (rated_power : Nat)
    (h : mapContains s.devices device_id = true) :
    register_inverter s now device_id policy_id manufacturer model rated_power =
      (Except.error "Device already registered", s) := by
  unfold register_inverter
  rw [h]
  rfl

theorem register_duplicate_fails_witness :
    mapContains demoState.devices "INV001" = true ∧
    register_inverter demoState 500 "INV001" "POL002" "OtherMan" "OtherModel" 5000 =
      (Except.error "Device already registered", demoState) :=
  ⟨by decide,
   register_duplicate_fails demoState 500 "INV001" "POL002" "OtherMan" "OtherModel" 5000
     (by decide)⟩

/-- C6: an actor never passed to `authorize_provider` over any call trace
from the freshly deployed contract is absent from AuthorizedProviders, so
`update_inverter_data` called with that actor fails with the Unauthorized
error ("Unauthorized provider") and returns the persisted state — device
registry, maintenance log and provider list — unchanged. -/
theorem update_unauthorized_fails (calls : List Call) (actor : Address)
    (hnever : Call.authorize actor ∉ calls)
    (now : Nat) (device_id : String)
    (energy_produced peak_power dc_voltage dc_current ac_voltage ac_frequency : Nat)
    (internal_temp : Int)
    (efficiency power_factor daily_yield total_yield operating_hours : Nat) :
    update_inverter_data (runTrace initState calls) now device_id actor energy_produced
      peak_power dc_voltage dc_current ac_voltage ac_frequency internal_temp efficiency
      power_factor daily_yield total_yield operating_hours =
      (Except.error "Unauthorized provider", runTrace initState calls) := by
  have h0 : actor ∉ initState.authorized := by simp [initState]
  have h := runTrace_not_mem_authorized actor calls initState h0 hnever
  have hc : (runTrace initState calls).authorized.contains actor = false := by
    simpa using h
  unfold update_inverter_data
  rw [hc]
  rfl

theorem update_unauthorized_fails_witness :
    Call.authorize "EVE" ∉ demoTrace ∧
    update_inverter_data (runTrace initState demoTrace) 1000 "INV001" "EVE" 5000 6000 400
      15000 240 60000 450 960 980 45000 1000000 12000 =
      (Except.error "Unauthorized provider", runTrace initState demoTrace) :=
  ⟨by decide,
   update_unauthorized_fails demoTrace "EVE" (by decide) 1000 "INV001" 5000 6000 400 15000
     240 60000 450 960 980 45000 1000000 12000⟩

/-- C9: for a registered device whose last contact is at most 300 time
units old, `check_device_status` returns Ok and performs no write at all:
the returned state is exactly the input state, so the stored record
(including its online flag, whatever its value) is untouched and a
stale-free device is never set back online. -/
theorem check_fresh_is_noop (s : ContractState) (now : Nat) (device_id : String)
    (d : Inverter)
    (hd : mapGet s.devices device_id = some d)
    (hle : d.last_ping ≤ now) (hnow : now < 2 ^ 64)
    (hfresh : now - d.last_ping ≤ 300) :
    check_device_status s now device_id = (Except.ok (), s) := by
  have hcond : ¬ (300 < wsub now d.last_ping) := by
    unfold wsub
    omega
  unfold check_device_status
  simp only [hd]
  rw [if_neg hcond]

theorem check_fresh_is_noop_witness :
    mapGet demoState.devices "INV001" = some demoDevice ∧
    check_device_status demoState 200 "INV001" = (Except.ok (), demoState) :=
  ⟨by decide,
   check_fresh_is_noop demoState 200 "INV001" demoDevice (by decide) (by decide)
     (by decide) (by decide)⟩

/-- C2: every successful `update_inverter_data` returns the
claim-suggestion boolean !operational && (now - last_ping) > 14400
evaluated with the just-updated last_ping; since last_ping was set to now
in the same step, the elapsed-time term is zero and the returned signal
is false for every accepted reading. -/
theorem update_claim_signal_always_false (s : ContractState) (now : Nat)
    (device_id : String) (auth_provider : Address)
    (energy_produced peak_power dc_voltage dc_current ac_voltage ac_frequency : Nat)
    (internal_temp : Int)
    (efficiency power_factor daily_yield total_yield operating_hours : Nat)
    (b : Bool) (s' : ContractState)
    (hup : update_inverter_data s now device_id auth_provider energy_produced peak_power
      dc_voltage dc_current ac_voltage ac_frequency internal_temp efficiency power_factor
      daily_yield total_yield operating_hours = (Except.ok b, s')) :
    b = false := by
  obtain ⟨d, -, -, hb⟩ := update_ok_elim s now device_id auth_provider energy_produced
    peak_power dc_voltage dc_current ac_voltage ac_frequency internal_temp efficiency
    power_factor daily_yield total_yield operating_hours b s' hup
  exact hb

theorem update_claim_signal_always_false_witness :
    (update_inverter_data demoState 1000 "INV001" "PROVIDER1" 5000 6000 400 15000 240 60000
      450 960 980 45000 1000000 12000).1 = Except.ok false ∧ (false : Bool) = false :=
  ⟨by rfl,
   update_claim_signal_always_false demoState 1000 "INV001" "PROVIDER1" 5000 6000 400 15000
     240 60000 450 960 980 45000 1000000 12000 false
     (update_inverter_data demoState 1000 "INV001" "PROVIDER1" 5000 6000 400 15000 240
       60000 450 960 980 45000 1000000 12000).2 (by rfl)⟩

/-- C8: an accepted reading leaves the device's identity and metadata
fields unchanged: device_id, policy_id, device_type, manufacturer, model
and rated_power after `update_inverter_data` equal their values before
it. -/
theorem update_preserves_metadata (s : ContractState) (now : Nat) (device_id : String)
    (auth_provider : Address)
    (energy_produced peak_power dc_voltage dc_current ac_voltage ac_frequency : Nat)
    (internal_temp : Int)
    (efficiency power_factor daily_yield total_yield operating_hours : Nat)
    (d : Inverter) (b : Bool) (s' : ContractState)
    (hd : mapGet s.devices device_id = some d)
    (hup : update_inverter_data s now device_id auth_provider energy_produced peak_power
      dc_voltage dc_current ac_voltage ac_frequency internal_temp efficiency power_factor
      daily_yield total_yield operating_hours = (Except.ok b, s')) :
    ∃ d', mapGet s'.devices device_id = some d' ∧
      d'.device_id = d.device_id ∧ d'.policy_id = d.policy_id ∧
      d'.device_type = d.device_type ∧ d'.manufacturer = d.manufacturer ∧
      d'.model = d.model ∧ d'.rated_power = d.rated_power := by
  obtain ⟨d0, hd0, hget, -⟩ := update_ok_elim s now device_id auth_provider energy_produced
    peak_power dc_voltage dc_current ac_voltage ac_frequency internal_temp efficiency
    power_factor daily_yield total_yield operating_hours b s' hup
  rw [hd] at hd0
  injection hd0 with hdd
  subst hdd
  exact ⟨_, hget, rfl, rfl, rfl, rfl, rfl, rfl⟩

theorem update_preserves_metadata_witness :
    ∃ d', mapGet ((update_inverter_data demoState 1000 "INV001" "PROVIDER1" 5000 6000 400
        15000 240 60000 450 960 980 45000 1000000 12000).2).devices "INV001" = some d' ∧
      d'.device_id = demoDevice.device_id ∧ d'.policy_id = demoDevice.policy_id ∧
      d'.device_type = demoDevice.device_type ∧ d'.manufacturer = demoDevice.manufacturer ∧
      d'.model = demoDevice.model ∧ d'.rated_power = demoDevice.rated_power :=
  update_preserves_metadata demoState 1000 "INV001" "PROVIDER1" 5000 6000 400 15000 240
    60000 450 960 980 45000 1000000 12000 demoDevice false
    (update_inverter_data demoState 1000 "INV001" "PROVIDER1" 5000 6000 400 15000 240 60000
      450 960 980 45000 1000000 12000).2 (by decide) (by rfl)

/-- C4: an accepted reading sets operational_status to true exactly when
the performance ratio peak_power / rated_power expressed as a percentage
is at least 70, i.e. exactly when 70 * rated_power ≤ peak_power * 100;
the bounds keep the operands in the u32 range where the embedded
`perf_percent` provably agrees with the source's f64 computation. -/
theorem update_operational_iff_threshold (s : ContractState) (now : Nat)
    (device_id : String) (auth_provider : Address)
    (energy_produced peak_power dc_voltage dc_current ac_voltage ac_frequency : Nat)
    (internal_temp : Int)
    (efficiency power_factor daily_yield total_yield operating_hours : Nat)
    (d : Inverter) (b : Bool) (s' : ContractState)
    (hd : mapGet s.devices device_id = some d)
    (hrp : 0 < d.rated_power) (hpk : peak_power < 2 ^ 32) (hrk : d.rated_power < 2 ^ 32)
    (hup : update_inverter_data s now device_id auth_provider energy_produced peak_power
      dc_voltage dc_current ac_voltage ac_frequency internal_temp efficiency power_factor
      daily_yield total_yield operating_hours = (Except.ok b, s')) :
    ∃ d', mapGet s'.devices device_id = some d' ∧
      (d'.operational_status = true ↔ 70 * d.rated_power ≤ peak_power * 100) := by
  obtain ⟨d0, hd0, hget, -⟩ := update_ok_elim s now device_id auth_provider energy_produced
    peak_power dc_voltage dc_current ac_voltage ac_frequency internal_temp efficiency
    power_factor daily_yield total_yield operating_hours b s' hup
  rw [hd] at hd0
  injection hd0 with hdd
  subst hdd
  refine ⟨_, hget, ?_⟩
  show decide (70 ≤ perf_percent peak_power d.rated_power) = true ↔
    70 * d.rated_power ≤ peak_power * 100
  rw [decide_eq_true_eq]
  exact le_perf_percent_iff peak_power d.rated_power hrp

theorem update_operational_iff_threshold_witness :
    (∃ d', mapGet ((update_inverter_data demoState 1000 "INV001" "PROVIDER1" 5000 6000 400
        15000 240 60000 450 960 980 45000 1000000 12000).2).devices "INV001" = some d' ∧
      (d'.operational_status = true ↔ 70 * 7600 ≤ 6000 * 100)) ∧
    (∃ d', mapGet ((update_inverter_data demoState 1000 "INV001" "PROVIDER1" 5000 5000 400
        15000 240 60000 450 960 980 45000 1000000 12000).2).devices "INV001" = some d' ∧
      (d'.operational_status = true ↔ 70 * 7600 ≤ 5000 * 100)) :=
  ⟨update_operational_iff_threshold demoState 1000 "INV001" "PROVIDER1" 5000 6000 400 15000
      240 60000 450 960 980 45000 1000000 12000 demoDevice false
      (update_inverter_data demoState 1000 "INV001" "PROVIDER1" 5000 6000 400 15000 240
        60000 450 960 980 45000 1000000 12000).2 (by decide) (by decide) (by decide)
      (by decide) (by rfl),
   update_operational_iff_threshold demoState 1000 "INV001" "PROVIDER1" 5000 5000 400 15000
      240 60000 450 960 980 45000 1000000 12000 demoDevice false
      (update_inverter_data demoState 1000 "INV001" "PROVIDER1" 5000 5000 400 15000 240
        60000 450 960 980 45000 1000000 12000).2 (by decide) (by decide) (by decide)
      (by decide) (by rfl)⟩

/-- C3: after every accepted reading the stored history has at most 24
entries; the new history is the old history with the new reading appended
and just enough evicted from the front (so the oldest-first order is
preserved); last_reading equals the appended reading; and when a 25th
reading is appended the single front entry is evicted. -/
theorem update_history_bounded (s : ContractState) (now : Nat) (device_id : String)
    (auth_provider : Address)
    (energy_produced peak_power dc_voltage dc_current ac_voltage ac_frequency : Nat)
    (internal_temp : Int)
    (efficiency power_factor daily_yield total_yield operating_hours : Nat)
    (d : Inverter) (b : Bool) (s' : ContractState)
    (hd : mapGet s.devices device_id = some d)
    (hup : update_inverter_data s now device_id auth_provider energy_produced peak_power
      dc_voltage dc_current ac_voltage ac_frequency internal_temp efficiency power_factor
      daily_yield total_yield operating_hours = (Except.ok b, s')) :
    ∃ d', mapGet s'.devices device_id = some d' ∧
      d'.hourly_readings.length ≤ 24 ∧
      d'.last_reading = mkReading now energy_produced peak_power dc_voltage dc_current
        ac_voltage ac_frequency internal_temp efficiency power_factor daily_yield
        total_yield operating_hours ∧
      d'.hourly_readings = List.drop (d.hourly_readings.length + 1 - 24)
        (d.hourly_readings ++ [d'.last_reading]) ∧
      (d.hourly_readings.length = 24 →
        d'.hourly_readings = d.hourly_readings.tail ++ [d'.last_reading]) := by
  obtain ⟨d0, hd0, hget, -⟩ := update_ok_elim s now device_id auth_provider energy_produced
    peak_power dc_voltage dc_current ac_voltage ac_frequency internal_temp efficiency
    power_factor daily_yield total_yield operating_hours b s' hup
  rw [hd] at hd0
  injection hd0 with hdd
  subst hdd
  refine ⟨_, hget, ?_, rfl, ?_, ?_⟩
  · simp only [applyReading, trimHistory_eq_drop, List.length_drop, List.length_append,
      List.length_cons, List.length_nil]
    omega
  · simp only [applyReading, trimHistory_eq_drop, List.length_append, List.length_cons,
      List.length_nil]
  · intro h24
    have h1 : d.hourly_readings.length + 1 - 24 = 1 := by omega
    simp only [applyReading, trimHistory_eq_drop, List.length_append, List.length_cons,
      List.length_nil, Nat.add_zero, Nat.zero_add, h1]
    rw [List.drop_append_of_le_length (by omega), List.drop_one]

theorem update_history_bounded_witness :
    ∃ d', mapGet ((update_inverter_data fullHistoryState 1000 "INV001" "PROVIDER1" 5000
        6000 400 15000 240 60000 450 960 980 45000 1000000 12000).2).devices "INV001"
        = some d' ∧
      d'.hourly_readings.length ≤ 24 ∧
      d'.last_reading = mkReading 1000 5000 6000 400 15000 240 60000 450 960 980 45000
        1000000 12000 ∧
      d'.hourly_readings = List.drop (fullHistoryDevice.hourly_readings.length + 1 - 24)
        (fullHistoryDevice.hourly_readings ++ [d'.last_reading]) ∧
      (fullHistoryDevice.hourly_readings.length = 24 →
        d'.hourly_readings = fullHistoryDevice.hourly_readings.tail ++ [d'.last_reading]) :=
  update_history_bounded fullHistoryState 1000 "INV001" "PROVIDER1" 5000 6000 400 15000 240
    60000 450 960 980 45000 1000000 12000 fullHistoryDevice false
    (update_inverter_data fullHistoryState 1000 "INV001" "PROVIDER1" 5000 6000 400 15000
      240 60000 450 960 980 45000 1000000 12000).2 (by decide) (by rfl)

/-- C7: for a registered device whose last contact is more than 300 time
units before the current time, `check_device_status` sets online_status
to false and persists the record without mutating last_ping (the written
record differs from the old one in its online flag only); the operation
is idempotent: calling it again immediately afterward returns Ok and
leaves the state exactly as it was. -/
theorem check_stale_offline_idempotent (s : ContractState) (now : Nat)
    (device_id : String) (d : Inverter)
    (hd : mapGet s.devices device_id = some d)
    (hnow : now < 2 ^ 64)
    (hstale : d.last_ping + 300 < now) :
    ∃ s1, check_device_status s now device_id = (Except.ok (), s1) ∧
      mapGet s1.devices device_id = some ({ d with online_status := false }) ∧
      check_device_status s1 now device_id = (Except.ok (), s1) := by
  have hcond : 300 < wsub now d.last_ping := by
    unfold wsub
    omega
  refine ⟨{ s with devices := mapSet s.devices device_id ({ d with online_status := false }) },
    check_stale_writes s now device_id d hd hcond, mapGet_mapSet_self _ _ _, ?_⟩
  have h2 := check_stale_writes
    { s with devices := mapSet s.devices device_id ({ d with online_status := false }) }
    now device_id ({ d with online_status := false }) (mapGet_mapSet_self _ _ _) hcond
  rw [h2]
  have h3 : mapSet (mapSet s.devices device_id ({ d with online_status := false }))
      device_id ({ d with online_status := false })
      = mapSet s.devices device_id ({ d with online_status := false }) :=
    mapSet_eq_of_mapGet _ _ _ (mapGet_mapSet_self _ _ _)
  exact congrArg
    (fun x => ((Except.ok (), ContractState.mk x s.maintenance s.authorized) :
      Except String Unit × ContractState)) h3

theorem check_stale_offline_idempotent_witness :
    ∃ s1, check_device_status demoState 1000 "INV001" = (Except.ok (), s1) ∧
      mapGet s1.devices "INV001" = some ({ demoDevice with online_status := false }) ∧
      check_device_status s1 1000 "INV001" = (Except.ok (), s1) :=
  check_stale_offline_idempotent demoState 1000 "INV001" demoDevice (by decide) (by decide)
    (by decide)

/-- C1 (evaluation at the failing input): with rated_power 7600, an
accepted reading with peak_power 6000 (so the device is operational) and
efficiency field 8000 — which is 80.00 percent under the "percentage *
100" scaling declared for the field at line 18 of the source — is stored
with risk_level "LOW", because lines 199-204 compare the raw field value
against 90 and 75; under the declared scaling an operational device at
80 percent efficiency ought to be "MEDIUM". -/
theorem update_risk_at_scaled_80_percent :
    ((mapGet ((update_inverter_data demoState 1000 "INV001" "PROVIDER1" 5000 6000 400 15000
        240 60000 450 8000 980 45000 1000000 12000).2).devices "INV001").map
      (fun d => (d.operational_status, d.risk_level))) = some (true, "LOW") := by
  rfl

/-- C10: `initialize` unconditionally resets all persisted state — the
device registry, the maintenance log and the authorized-provider set all
become empty — for every prior state, including states with registered
devices and authorized providers; nothing guards it against
re-invocation. -/
theorem init_resets_all_state (s : ContractState) :
    init_storage s = { devices := [], maintenance := [], authorized := [] } := rfl

end Sunereum
